import Mathlib

/-!
Verification of the accounting slice (models.py / views.py): shallow embedding
of the Order / Payment / CouponCode data model, the checkout coordinator views
and the payment capture callbacks, with exact rational arithmetic standing in
for Python floats.
-/

namespace Accounting

/-- Python integer rounding with round-half-to-even tie breaking, as used by
the builtin `round`. -/
def rndHalfEven (x : ℚ) : ℤ :=
  let f := ⌊x⌋
  let r := x - (f : ℚ)
  if r < 1 / 2 then f
  else if 1 / 2 < r then f + 1
  else if f % 2 = 0 then f else f + 1

/-- Python `round(x, 2)` over exact rationals. -/
def roundQ2 (x : ℚ) : ℚ := ((rndHalfEven (x * 100) : ℤ) : ℚ) / 100

/-- Python `int(x)`: truncation toward zero. -/
def pyInt (x : ℚ) : ℤ := if 0 ≤ x then ⌊x⌋ else -⌊-x⌋

/-- Status values of applications.social_sites.models.SocialProfile that the
accounting code consults (CREATED, FAILED, REQUESTED_CREATION_UNPAID,
REQUESTED_CREATION_PAID, plus the remaining non-terminal ones collapsed into
`inProgress`). -/
inductive SPStatus
  | requestedCreationUnpaid
  | requestedCreationPaid
  | created
  | failed
  | inProgress
  deriving DecidableEq, Repr

/-- A SocialProfile row as the accounting code sees it: primary key, the price
of its site (`site__price`) and its status. -/
structure SocialProfile where
  pk : ℕ
  sitePrice : ℚ
  status : SPStatus
  deriving DecidableEq, Repr

/-- Status values of applications.reputation.models.ReputationCase consulted
here (OPEN_UNPAID, OPEN_PAID, rest collapsed). -/
inductive RCStatus
  | openUnpaid
  | openPaid
  | otherStatus
  deriving DecidableEq, Repr

/-- A ReputationCase row as the accounting code sees it. -/
structure ReputationCase where
  pk : ℕ
  price : ℚ
  status : RCStatus
  deriving DecidableEq, Repr

/-- Order.SERVICE_TYPE_CHOICES: SOCIAL_PROFILES = 0, REPUTATION_CASE = 1. -/
inductive ServiceType
  | socialProfiles
  | reputationCase
  deriving DecidableEq, Repr

/-- CouponCode: discount and commission percentages (the code string and the
sales-rep reference play no role in the verified operations). -/
structure CouponCode where
  discount : ℚ
  commission : ℚ
  deriving DecidableEq, Repr

/-- Order: pk, service type, JSON list of item pks, the payment method's
variant string, and the optional coupon code. -/
structure Order where
  pk : ℕ
  serviceType : ServiceType
  items : List ℕ
  pmVariant : String
  couponCode : Option CouponCode
  deriving DecidableEq, Repr

/-- Order.discount: `self.coupon_code.discount if self.coupon_code else 0`. -/
def Order.discount (o : Order) : ℚ :=
  match o.couponCode with
  | some c => c.discount
  | none => 0

/-- Order.get_items for a SocialProfiles order:
`SocialProfile.objects.filter(pk__in=self.items)` over the catalog rows. -/
def Order.get_items_sp (o : Order) (spCat : List SocialProfile) : List SocialProfile :=
  spCat.filter (fun p => decide (p.pk ∈ o.items))

/-- Order.get_items for a ReputationCase order:
`ReputationCase.objects.filter(pk__in=self.items)` over the catalog rows. -/
def Order.get_items_rc (o : Order) (rcCat : List ReputationCase) : List ReputationCase :=
  rcCat.filter (fun p => decide (p.pk ∈ o.items))

/-- The `items.aggregate(total=sum_expr).get("total") or 0.0` value of
Order.calculate_total: the SQL Sum is None exactly on the empty queryset and
`or 0.0` maps that to 0.0, which coincides with the empty-list sum. -/
def Order.subtotal (o : Order) (spCat : List SocialProfile)
    (rcCat : List ReputationCase) : ℚ :=
  match o.serviceType with
  | ServiceType.socialProfiles => ((o.get_items_sp spCat).map SocialProfile.sitePrice).sum
  | ServiceType.reputationCase => ((o.get_items_rc rcCat).map ReputationCase.price).sum

/-- Order.calculate_total(include_discount=True):
`do_calc_discount = self.discount and include_discount` (float truthiness:
discount is truthy iff nonzero), `total *= 1 - self.discount / 100.` when set,
then `round(total, 2)`. -/
def Order.calculate_total (o : Order) (spCat : List SocialProfile)
    (rcCat : List ReputationCase) (includeDiscount : Bool) : ℚ :=
  let total := o.subtotal spCat rcCat
  let total := if o.discount ≠ 0 ∧ includeDiscount = true
               then total * (1 - o.discount / 100) else total
  roundQ2 total

/-- The total computed inside Order.create_payment:
`total = float(amount) if amount else self.calculate_total(False)` (a zero or
absent amount is falsy) followed by
`if self.discount: total *= 1 - self.discount / 100.` with no further
rounding. -/
def Order.create_payment_total (o : Order) (spCat : List SocialProfile)
    (rcCat : List ReputationCase) (amount : Option ℚ) : ℚ :=
  let total :=
    match amount with
    | some a => if a ≠ 0 then a else o.calculate_total spCat rcCat false
    | none => o.calculate_total spCat rcCat false
  if o.discount ≠ 0 then total * (1 - o.discount / 100) else total

/-- A Payment row: pk, the OneToOneField reference to its Order, total,
currency, gateway variant and lifecycle status. -/
structure Payment where
  pk : ℕ
  orderId : ℕ
  total : ℚ
  currency : String
  variant : String
  status : String
  deriving DecidableEq, Repr

/-- The failure modes of a payment-creation attempt: the database-level
IntegrityError raised by the UNIQUE constraint that the OneToOneField
`Payment.order` declares, and the application-boundary rejection the spec
describes. -/
inductive CreatePaymentError
  | integrityError
  | alreadyExists
  deriving DecidableEq, Repr

/-- `Payment.objects.create(...)`: the INSERT trips the UNIQUE constraint of
the OneToOneField `order` when a Payment for the same Order already exists;
the transaction is aborted and the table is unchanged. -/
def paymentObjectsCreate (db : List Payment) (p : Payment) :
    Except CreatePaymentError Unit × List Payment :=
  if db.any (fun q => decide (q.orderId = p.orderId))
  then (Except.error CreatePaymentError.integrityError, db)
  else (Except.ok (), db ++ [p])

/-- Order.create_payment(amount=None): computes the total (see
`Order.create_payment_total`) and calls `Payment.objects.create` with
`variant=self.payment_method.variant, order=self, total=total,
currency="USD"`. The method itself performs no has_payment check. -/
def Order.create_payment (o : Order) (spCat : List SocialProfile)
    (rcCat : List ReputationCase) (db : List Payment) (amount : Option ℚ) :
    Except CreatePaymentError Payment × List Payment :=
  let total := o.create_payment_total spCat rcCat amount
  let p : Payment :=
    { pk := db.length + 1, orderId := o.pk, total := total,
      currency := "USD", variant := o.pmVariant, status := "waiting" }
  match paymentObjectsCreate db p with
  | (Except.error e, db2) => (Except.error e, db2)
  | (Except.ok _, db2) => (Except.ok p, db2)

/-- Modelled from the spec: "if a Payment already exists for this Order,
creating another is disallowed (the one-to-one invariant is enforced at this
boundary, not just by storage constraint)" — a payment-creation operation that
checks `has_payment` at the application boundary and rejects before touching
storage. The method in models.py contains no such check. -/
def Order.create_payment_boundary (o : Order) (spCat : List SocialProfile)
    (rcCat : List ReputationCase) (db : List Payment) (amount : Option ℚ) :
    Except CreatePaymentError Payment × List Payment :=
  if db.any (fun q => decide (q.orderId = o.pk))
  then (Except.error CreatePaymentError.alreadyExists, db)
  else o.create_payment spCat rcCat db amount

/-- The JSON shape returned by Order.order_progress. -/
structure OrderProgress where
  created : ℕ
  total : ℕ
  progress : String
  deriving DecidableEq, Repr

/-- Order.order_progress. `none` stands both for the Python function falling
through without a return statement (non-SocialProfiles orders) and for the
ZeroDivisionError that `round(created_count / total_count, 2)` raises on an
empty item set; the code contains no guard for either. -/
def Order.order_progress (o : Order) (spCat : List SocialProfile) :
    Option OrderProgress :=
  match o.serviceType with
  | ServiceType.socialProfiles =>
      let items := o.get_items_sp spCat
      let totalCount := items.length
      let createdCount :=
        (items.filter (fun p =>
          decide (p.status = SPStatus.created ∨ p.status = SPStatus.failed))).length
      if totalCount = 0 then none
      else
        let progress := roundQ2 ((createdCount : ℚ) / (totalCount : ℚ)) * 100
        some { created := createdCount, total := totalCount,
               progress := toString (pyInt progress) ++ "%" }
  | ServiceType.reputationCase => none

/-- The order_progress view of views.py: `get_object_or_404(Order,
service_type=Order.SOCIAL_PROFILES, pk=order_pk)` 404s for non-SocialProfiles
orders, then `JsonResponse(order.order_progress)`; an exception inside the
property propagates (none). -/
def orderProgressView (o : Order) (spCat : List SocialProfile) :
    Option OrderProgress :=
  if o.serviceType = ServiceType.socialProfiles
  then o.order_progress spCat else none

/-- The per-session ephemeral state views.py keeps: the carton cart lines
(OrderSite id and price) and CHECKOUT_INFO. `checkoutInfo = some url`
models `{"is_blocked": True, "payment_url": url}`, `none` models an absent or
emptied dict (falsy, hence `is_blocked` False). -/
structure Session where
  cart : List (ℕ × ℚ)
  checkoutInfo : Option ℕ
  deriving DecidableEq, Repr

/-- The durable side effects of a checkout, counted: Orders, Payments and
SocialProfiles created so far. The payment url is modelled by the id of the
payment it points at. -/
structure ShopState where
  sess : Session
  ordersCreated : ℕ
  paymentsCreated : ℕ
  profilesCreated : ℕ
  deriving DecidableEq, Repr

/-- cart_checkout (POST branch with a valid form): reads CHECKOUT_INFO; if
blocked, redirects to the remembered payment_url and creates nothing;
otherwise materialises one SocialProfile per cart line, one Order and one
Payment, stores `{"is_blocked": True, "payment_url": ...}` in the session and
redirects to the new payment's url. Returns the new state and the redirect
target. -/
def cart_checkout (st : ShopState) : ShopState × ℕ :=
  match st.sess.checkoutInfo with
  | some url => (st, url)
  | none =>
      let url := st.paymentsCreated + 1
      ({ sess := { cart := st.sess.cart, checkoutInfo := some url },
         ordersCreated := st.ordersCreated + 1,
         paymentsCreated := st.paymentsCreated + 1,
         profilesCreated := st.profilesCreated + st.sess.cart.length }, url)

/-- The id list the confirmed branch of payment_success computes:
`payment.order.get_items().filter(status=REQUESTED_CREATION_UNPAID)
.values_list("pk", flat=True)`. -/
def dispatchIds (o : Order) (spCat : List SocialProfile) : List ℕ :=
  ((o.get_items_sp spCat).filter (fun p =>
    decide (p.status = SPStatus.requestedCreationUnpaid))).map SocialProfile.pk

/-- `SocialProfile.objects.filter(pk__in=ids).update(status=
REQUESTED_CREATION_PAID)`. -/
def markPaid (spCat : List SocialProfile) (ids : List ℕ) : List SocialProfile :=
  spCat.map (fun p =>
    if p.pk ∈ ids then { p with status := SPStatus.requestedCreationPaid } else p)

/-- Everything payment_success touches: the session, both catalogs, the
work-queue submissions issued during the run (`run_worker.apply_async`), the
user's made_an_order progress flag, and whether the user message was the
"Payment failed!" warning. -/
structure CaptureResult where
  sess : Session
  spCat : List SocialProfile
  rcCat : List ReputationCase
  dispatched : List ℕ
  madeAnOrder : Bool
  warning : Bool
  deriving DecidableEq, Repr

/-- payment_success after `payment.capture()`: `paymentStatus` is the payment
status capture resolved to. For SocialProfiles orders the cart and
CHECKOUT_INFO are cleared unconditionally; if moreover the status is
"confirmed", the unpaid items of the order flip to paid, each collected pk is
dispatched to the work queue once, and the made_an_order flag is set. For
ReputationCase orders with a confirmed status the unpaid items flip to paid
with no dispatch. Any other case issues the "Payment failed!" warning. -/
def payment_success (spCat : List SocialProfile) (rcCat : List ReputationCase)
    (sess : Session) (o : Order) (paymentStatus : String) (madeAnOrder : Bool) :
    CaptureResult :=
  let sess1 := if o.serviceType = ServiceType.socialProfiles
               then { cart := [], checkoutInfo := none } else sess
  if o.serviceType = ServiceType.socialProfiles ∧ paymentStatus = "confirmed" then
    let ids := dispatchIds o spCat
    { sess := sess1, spCat := markPaid spCat ids, rcCat := rcCat,
      dispatched := ids, madeAnOrder := true, warning := false }
  else if o.serviceType = ServiceType.reputationCase ∧ paymentStatus = "confirmed" then
    let rcCat1 := rcCat.map (fun p =>
      if p.pk ∈ o.items ∧ p.status = RCStatus.openUnpaid
      then { p with status := RCStatus.openPaid } else p)
    { sess := sess1, spCat := spCat, rcCat := rcCat1,
      dispatched := [], madeAnOrder := madeAnOrder, warning := false }
  else
    { sess := sess1, spCat := spCat, rcCat := rcCat,
      dispatched := [], madeAnOrder := madeAnOrder, warning := true }

/-- payment_failure: empties CHECKOUT_INFO (`request.session["CHECKOUT_INFO"]
= {}`) and touches nothing else; in particular the cart is kept. -/
def payment_failure (sess : Session) : Session :=
  { cart := sess.cart, checkoutInfo := none }

/-- A sequence of payment_success runs (gateway retries): threads the catalogs,
session and progress flag through and concatenates the dispatched work ids. -/
def run_success_seq (o : Order) :
    List SocialProfile → List ReputationCase → Session → Bool → List String →
    List SocialProfile × List ℕ
  | spCat, _, _, _, [] => (spCat, [])
  | spCat, rcCat, sess, flag, st :: rest =>
      let r := payment_success spCat rcCat sess o st flag
      let t := run_success_seq o r.spCat r.rcCat r.sess r.madeAnOrder rest
      (t.1, r.dispatched ++ t.2)

/-! Concrete instances used in counterexamples and witnesses. -/

/-- A catalog of three profiles, two in Created state, one awaiting payment. -/
def exCatSP3 : List SocialProfile :=
  [⟨1, 0, SPStatus.created⟩, ⟨2, 0, SPStatus.created⟩,
   ⟨3, 0, SPStatus.requestedCreationUnpaid⟩]

/-- A SocialProfiles order owning the three profiles of `exCatSP3`. -/
def exOrderSP3 : Order := ⟨1, ServiceType.socialProfiles, [1, 2, 3], "default", none⟩

/-- A catalog of five profiles, two in Created state, three pending. -/
def exCatSP5 : List SocialProfile :=
  [⟨1, 0, SPStatus.created⟩, ⟨2, 0, SPStatus.created⟩,
   ⟨3, 0, SPStatus.requestedCreationUnpaid⟩, ⟨4, 0, SPStatus.requestedCreationUnpaid⟩,
   ⟨5, 0, SPStatus.requestedCreationUnpaid⟩]

/-- A SocialProfiles order owning the five profiles of `exCatSP5`. -/
def exOrderSP5 : Order := ⟨1, ServiceType.socialProfiles, [1, 2, 3, 4, 5], "default", none⟩

/-- A catalog with a single profile whose site costs $10. -/
def exCatP10 : List SocialProfile := [⟨1, 10, SPStatus.created⟩]

/-- An order over the $10 profile carrying a 20% discount code. -/
def exOrderD20 : Order := ⟨1, ServiceType.socialProfiles, [1], "default", some ⟨20, 0⟩⟩

/-- A payment table already holding a Payment for order 1. -/
def exDb : List Payment := [⟨1, 1, 8, "USD", "default", "confirmed"⟩]

/-- A catalog with a single profile whose site costs $1.01. -/
def exCatP101 : List SocialProfile := [⟨1, 101 / 100, SPStatus.created⟩]

/-- An order over the $1.01 profile carrying a 50% discount code. -/
def exOrderD50 : Order := ⟨1, ServiceType.socialProfiles, [1], "default", some ⟨50, 0⟩⟩

/-- A SocialProfiles order with an empty item set. -/
def exOrderEmpty : Order := ⟨1, ServiceType.socialProfiles, [], "default", none⟩

/-- A session with one cart line and a blocked checkout remembering url 7. -/
def exSessionBlocked : Session := ⟨[(1, 10)], some 7⟩

/-- A shop state with one cart line and no checkout in flight. -/
def exShopState : ShopState := ⟨⟨[(1, 10)], none⟩, 0, 0, 0⟩

/-! Helper lemmas. -/

/-- Round-half-even fixes integers. -/
lemma rndHalfEven_intCast (n : ℤ) : rndHalfEven (n : ℚ) = n := by
  rw [rndHalfEven]
  simp [Int.floor_intCast]

/-- roundQ2 fixes rationals that are whole numbers of cents. -/
lemma roundQ2_eq_self {x : ℚ} (h : ∃ n : ℤ, x * 100 = (n : ℚ)) : roundQ2 x = x := by
  obtain ⟨n, hn⟩ := h
  have hx : x = (n : ℚ) / 100 := by
    field_simp at hn ⊢
    linarith [hn]
  rw [roundQ2, hn, rndHalfEven_intCast, hx]

/-- roundQ2 always lands on a whole number of cents. -/
lemma roundQ2_cents (x : ℚ) : ∃ n : ℤ, roundQ2 x * 100 = (n : ℚ) := by
  refine ⟨rndHalfEven (x * 100), ?_⟩
  rw [roundQ2]
  field_simp

/-- roundQ2 is idempotent. -/
lemma roundQ2_roundQ2 (x : ℚ) : roundQ2 (roundQ2 x) = roundQ2 x :=
  roundQ2_eq_self (roundQ2_cents x)

/-- roundQ2 of zero. -/
lemma roundQ2_zero : roundQ2 0 = 0 := by
  have h : ((0 : ℤ) : ℚ) = 0 := by norm_num
  simpa using roundQ2_eq_self ⟨0, by rw [h]; ring⟩

/-- A sum of whole-cent values is a whole number of cents. -/
lemma sum_cents : ∀ l : List ℚ, (∀ x ∈ l, ∃ n : ℤ, x * 100 = (n : ℚ)) →
    ∃ n : ℤ, l.sum * 100 = (n : ℚ)
  | [], _ => ⟨0, by norm_num⟩
  | x :: l, h => by
      obtain ⟨n, hn⟩ := h x (List.mem_cons_self x l)
      obtain ⟨m, hm⟩ := sum_cents l (fun y hy => h y (List.mem_cons_of_mem x hy))
      exact ⟨n + m, by push_cast; rw [List.sum_cons, add_mul, hn, hm]⟩

/-- Python int() of an integer-valued rational. -/
lemma pyInt_intCast (n : ℤ) : pyInt (n : ℚ) = n := by
  rw [pyInt]
  split
  · exact Int.floor_intCast n
  · rw [show (-(n : ℚ)) = ((-n : ℤ) : ℚ) by push_cast; ring, Int.floor_intCast]
    ring

/-- int(round(q, 2) * 100) is the round-half-even of 100q. -/
lemma pyInt_roundQ2_hundred (q : ℚ) : pyInt (roundQ2 q * 100) = rndHalfEven (q * 100) := by
  have h : roundQ2 q * 100 = ((rndHalfEven (q * 100) : ℤ) : ℚ) := by
    rw [roundQ2]; field_simp
  rw [h, pyInt_intCast]

/-! Claim theorems. -/

/-- C9: for every Order whose item set is empty, calculate_total returns 0.0
for either value of include_discount, and does not error. -/
theorem calculate_total_empty_is_zero (o : Order) (spCat : List SocialProfile)
    (rcCat : List ReputationCase) (includeDiscount : Bool)
    (h : o.items = []) : o.calculate_total spCat rcCat includeDiscount = 0 := by
  have hs : o.subtotal spCat rcCat = 0 := by
    rw [Order.subtotal]
    cases o.serviceType <;>
      simp [Order.get_items_sp, Order.get_items_rc, h]
  rw [Order.calculate_total, hs]
  simp only [zero_mul, ite_self]
  exact roundQ2_zero

/-- C9 witness: an order with no items totals 0 with and without discount. -/
theorem calculate_total_empty_is_zero_witness :
    Order.calculate_total exOrderEmpty exCatSP3 [] true = 0 ∧
    Order.calculate_total exOrderEmpty exCatSP3 [] false = 0 :=
  ⟨calculate_total_empty_is_zero exOrderEmpty exCatSP3 [] true rfl,
   calculate_total_empty_is_zero exOrderEmpty exCatSP3 [] false rfl⟩

/-- C10: create_payment with an explicit amount of 0 behaves exactly as a call
with no amount (`if amount` is falsy for 0): the payment total is the
undiscounted items total with the discount multiplier applied, not 0. -/
theorem create_payment_total_zero_amount (o : Order) (spCat : List SocialProfile)
    (rcCat : List ReputationCase) :
    o.create_payment_total spCat rcCat (some 0)
      = o.create_payment_total spCat rcCat none ∧
    o.create_payment_total spCat rcCat none
      = (if o.discount ≠ 0
         then o.calculate_total spCat rcCat false * (1 - o.discount / 100)
         else o.calculate_total spCat rcCat false) := by
  constructor
  · rw [Order.create_payment_total, Order.create_payment_total]
    simp
  · rw [Order.create_payment_total]

/-- C6: Order.order_progress on a SocialProfiles order with an empty item set
raises ZeroDivisionError (modelled as none) instead of answering
{0, 0, "0%"}, and the order-progress view does not guard it. -/
theorem order_progress_empty_order_errors :
    Order.order_progress exOrderEmpty [] = none ∧
    orderProgressView exOrderEmpty [] = none ∧
    orderProgressView exOrderEmpty []
      ≠ some { created := 0, total := 0, progress := "0%" } := by
  refine ⟨rfl, rfl, ?_⟩
  intro h
  exact Option.noConfusion h

/-- C1: the checkout coordinator creates at most one Order and one Payment per
session: a submission on a blocked session creates nothing and redirects to
the remembered payment url; from an unblocked session, the first submission
creates exactly one Order and one Payment and the second submission changes
nothing and redirects to the first payment's url. -/
theorem cart_checkout_at_most_once (st : ShopState) :
    (∀ u, st.sess.checkoutInfo = some u → cart_checkout st = (st, u)) ∧
    (st.sess.checkoutInfo = none →
      (cart_checkout st).1.ordersCreated = st.ordersCreated + 1 ∧
      (cart_checkout st).1.paymentsCreated = st.paymentsCreated + 1 ∧
      cart_checkout (cart_checkout st).1 = ((cart_checkout st).1, (cart_checkout st).2)) := by
  constructor
  · intro u hu
    rw [cart_checkout, hu]
  · intro h
    rw [cart_checkout, h]
    exact ⟨rfl, rfl, rfl⟩

/-- C1 witness: from an unblocked session with one cart line, the first
submission creates the one Order and Payment and the second is a pure
redirect. -/
theorem cart_checkout_at_most_once_witness :
    (cart_checkout exShopState).1.ordersCreated = 1 ∧
    (cart_checkout exShopState).1.paymentsCreated = 1 ∧
    cart_checkout (cart_checkout exShopState).1
      = ((cart_checkout exShopState).1, (cart_checkout exShopState).2) :=
  (cart_checkout_at_most_once exShopState).2 rfl

/-- C2 counterexample: on an Order that already has a Payment, create_payment
fails with the storage-layer IntegrityError of the one-to-one constraint; the
boundary check described by the spec would reject before storage with a
different failure. The method body itself contains no has_payment check. -/
theorem create_payment_not_boundary_checked :
    Order.create_payment exOrderD20 exCatP10 [] exDb none
      = (Except.error CreatePaymentError.integrityError, exDb) ∧
    Order.create_payment_boundary exOrderD20 exCatP10 [] exDb none
      = (Except.error CreatePaymentError.alreadyExists, exDb) ∧
    (Except.error CreatePaymentError.integrityError :
        Except CreatePaymentError Payment)
      ≠ Except.error CreatePaymentError.alreadyExists := by
  refine ⟨rfl, rfl, ?_⟩
  intro h
  have h2 := Except.error.inj h
  exact CreatePaymentError.noConfusion h2

/-- C2 amended: a second create_payment call on an Order that already has a
Payment fails — via the storage-level one-to-one unique constraint
(IntegrityError), not an application-boundary check — and leaves the payment
table, hence the existing Payment, unchanged. -/
theorem create_payment_second_call_fails (o : Order) (spCat : List SocialProfile)
    (rcCat : List ReputationCase) (db : List Payment) (amount : Option ℚ)
    (h : ∃ p ∈ db, p.orderId = o.pk) :
    o.create_payment spCat rcCat db amount
      = (Except.error CreatePaymentError.integrityError, db) := by
  obtain ⟨p, hp, hpo⟩ := h
  have hany : db.any (fun q => decide (q.orderId = o.pk)) = true :=
    List.any_eq_true.mpr ⟨p, hp, by simp [hpo]⟩
  rw [Order.create_payment, paymentObjectsCreate]
  simp only [hany, if_pos]

/-- C2 amended witness: the concrete second call fails and the table keeps
exactly the original payment. -/
theorem create_payment_second_call_fails_witness :
    Order.create_payment exOrderD20 exCatP10 [] exDb (some 10)
      = (Except.error CreatePaymentError.integrityError, exDb) :=
  create_payment_second_call_fails exOrderD20 exCatP10 [] exDb (some 10)
    ⟨⟨1, 1, 8, "USD", "default", "confirmed"⟩, by rw [exDb]; exact List.mem_cons_self _ _, rfl⟩

/-- C3 counterexample: for an order with a 20% discount code and one $10 item,
create_payment(amount=10) records a total of 8, not the amount 10 the claim
requires: the discount multiplier is applied on top of an explicit amount.
And for a $1.01 item with a 50% code and no amount, create_payment records
1.01 · 0.5 = 0.505 while calculate_total(True) rounds it to 0.5: the
no-amount total is not re-rounded and so differs from calculate_total(True). -/
theorem create_payment_total_ignores_amount :
    Order.create_payment_total exOrderD20 exCatP10 [] (some 10) ≠ 10 ∧
    Order.create_payment_total exOrderD50 exCatP101 [] none
      ≠ Order.calculate_total exOrderD50 exCatP101 [] true := by
  constructor
  · norm_num [Order.create_payment_total, Order.discount, exOrderD20]
  · have h1 : Order.create_payment_total exOrderD50 exCatP101 [] none = 101 / 200 := by
      have hf : Order.calculate_total exOrderD50 exCatP101 [] false = 101 / 100 := by
        rw [Order.calculate_total]
        have hs : Order.subtotal exOrderD50 exCatP101 [] = 101 / 100 := by
          rw [Order.subtotal]
          simp [Order.get_items_sp, exOrderD50, exCatP101]
        rw [hs]
        norm_num
        exact roundQ2_eq_self ⟨101, by norm_num⟩
      rw [Order.create_payment_total]
      rw [hf]
      norm_num [Order.discount, exOrderD50]
    have h2 : Order.calculate_total exOrderD50 exCatP101 [] true = 1 / 2 := by
      rw [Order.calculate_total]
      have hs : Order.subtotal exOrderD50 exCatP101 [] = 101 / 100 := by
        rw [Order.subtotal]
        simp [Order.get_items_sp, exOrderD50, exCatP101]
      rw [hs]
      have hd : Order.discount exOrderD50 = 50 := by norm_num [Order.discount, exOrderD50]
      rw [hd]
      norm_num
      rw [roundQ2, show ((101 : ℚ) / 200 * 100) = 101 / 2 by norm_num, rndHalfEven]
      rw [show ⌊(101 : ℚ) / 2⌋ = 50 by norm_num]
      norm_num
    rw [h1, h2]
    norm_num

/-- C3 amended: the Payment total is amount · (1 − d/100) when a nonzero
amount is given, and calculate_total(include_discount=False) · (1 − d/100)
when the amount is absent, where d is the order's discount (0 without a
code); it is not the unmodified amount, nor calculate_total(True), which
re-rounds after discounting. -/
theorem create_payment_total_formula (o : Order) (spCat : List SocialProfile)
    (rcCat : List ReputationCase) :
    (∀ a : ℚ, a ≠ 0 →
      o.create_payment_total spCat rcCat (some a) = a * (1 - o.discount / 100)) ∧
    o.create_payment_total spCat rcCat none
      = o.calculate_total spCat rcCat false * (1 - o.discount / 100) := by
  constructor
  · intro a ha
    rw [Order.create_payment_total]
    by_cases hd : o.discount = 0 <;> simp [ha, hd]
  · rw [Order.create_payment_total]
    by_cases hd : o.discount = 0 <;> simp [hd]

/-- C3 amended witness: with a 20% code, an explicit amount of 10 yields a
payment total of 8, and the no-amount call yields the discounted items
total. -/
theorem create_payment_total_formula_witness :
    Order.create_payment_total exOrderD20 exCatP10 [] (some 10)
      = 10 * (1 - Order.discount exOrderD20 / 100) ∧
    Order.create_payment_total exOrderD20 exCatP10 [] none
      = Order.calculate_total exOrderD20 exCatP10 [] false
          * (1 - Order.discount exOrderD20 / 100) :=
  ⟨(create_payment_total_formula exOrderD20 exCatP10 []).1 10 (by norm_num),
   (create_payment_total_formula exOrderD20 exCatP10 []).2⟩

/-- C4: with a discount code of d%, calculate_total(True) is
round(calculate_total(False) · (1 − d/100), 2), provided every involved
catalog price is a whole number of cents (so that the inner rounding of
calculate_total(False) is the identity). -/
theorem calculate_total_discount_relation (o : Order) (spCat : List SocialProfile)
    (rcCat : List ReputationCase) (c : CouponCode) (hc : o.couponCode = some c)
    (hsp : ∀ p ∈ o.get_items_sp spCat, ∃ n : ℤ, p.sitePrice * 100 = (n : ℚ))
    (hrc : ∀ p ∈ o.get_items_rc rcCat, ∃ n : ℤ, p.price * 100 = (n : ℚ)) :
    o.calculate_total spCat rcCat true
      = roundQ2 (o.calculate_total spCat rcCat false * (1 - c.discount / 100)) := by
  have hd : o.discount = c.discount := by rw [Order.discount, hc]
  have hS : ∃ n : ℤ, o.subtotal spCat rcCat * 100 = (n : ℚ) := by
    rw [Order.subtotal]
    cases hty : o.serviceType with
    | socialProfiles =>
        apply sum_cents
        intro x hx
        rw [List.mem_map] at hx
        obtain ⟨p, hp, rfl⟩ := hx
        exact hsp p hp
    | reputationCase =>
        apply sum_cents
        intro x hx
        rw [List.mem_map] at hx
        obtain ⟨p, hp, rfl⟩ := hx
        exact hrc p hp
  rw [Order.calculate_total, Order.calculate_total, hd]
  by_cases hdz : c.discount = 0
  · simp [hdz, roundQ2_roundQ2]
  · have hfix : roundQ2 (o.subtotal spCat rcCat) = o.subtotal spCat rcCat :=
      roundQ2_eq_self hS
    simp [hdz, hfix]

/-- C4 witness: one $10 item with a 20% code: 8 = round(10 · 0.8, 2). -/
theorem calculate_total_discount_relation_witness :
    Order.calculate_total exOrderD20 exCatP10 [] true
      = roundQ2 (Order.calculate_total exOrderD20 exCatP10 [] false * (1 - 20 / 100)) := by
  have h := calculate_total_discount_relation exOrderD20 exCatP10 [] ⟨20, 0⟩ rfl
    (by
      intro p hp
      simp only [Order.get_items_sp, exOrderD20, exCatP10, List.filter] at hp
      simp at hp
      exact ⟨1000, by rw [hp]; norm_num⟩)
    (by
      intro p hp
      simp [Order.get_items_rc] at hp)
  exact h

/-- The SocialProfiles branch of order_progress in closed form: the progress
percentage is the round-half-even of (created/total) · 100. -/
lemma order_progress_eq (o : Order) (spCat : List SocialProfile)
    (h : o.serviceType = ServiceType.socialProfiles)
    (hne : (o.get_items_sp spCat).length ≠ 0) :
    o.order_progress spCat = some {
      created := ((o.get_items_sp spCat).filter (fun p =>
        decide (p.status = SPStatus.created ∨ p.status = SPStatus.failed))).length,
      total := (o.get_items_sp spCat).length,
      progress := toString (rndHalfEven
        ((((o.get_items_sp spCat).filter (fun p =>
            decide (p.status = SPStatus.created ∨ p.status = SPStatus.failed))).length : ℚ)
          / ((o.get_items_sp spCat).length : ℚ) * 100)) ++ "%" } := by
  rw [Order.order_progress, h]
  simp only [if_neg hne]
  rw [pyInt_roundQ2_hundred]

/-- C5 counterexample: a SocialProfiles order with 3 items of which 2 are
Created: the code answers "67%" (round-half-even of 66.67), while the
claimed formula floor(100·2/3) gives 66. -/
theorem order_progress_not_floor :
    Order.order_progress exOrderSP3 exCatSP3
      = some { created := 2, total := 3, progress := "67%" } ∧
    ⌊100 * (2 : ℚ) / 3⌋ = (66 : ℤ) := by
  constructor
  · have h := order_progress_eq exOrderSP3 exCatSP3 rfl (by decide)
    have hc : ((exOrderSP3.get_items_sp exCatSP3).filter (fun p =>
        decide (p.status = SPStatus.created ∨ p.status = SPStatus.failed))).length = 2 := by
      decide
    have ht : (exOrderSP3.get_items_sp exCatSP3).length = 3 := by decide
    rw [hc, ht] at h
    have harg : (((2 : ℕ) : ℚ) / ((3 : ℕ) : ℚ) * 100) = 200 / 3 := by
      push_cast
      norm_num
    rw [harg] at h
    have hr : rndHalfEven ((200 : ℚ) / 3) = 67 := by
      rw [rndHalfEven]
      norm_num
    rw [hr] at h
    rw [h]
    rfl
  · norm_num

/-- C5 amended: for a non-empty SocialProfiles order, order_progress returns
created = number of items in Created or Failed state, total = number of
items, and progress = the percentage rounded half-to-even
(int(round(created/total, 2)·100)), not floored; the {2, 5, "40%"} scenario
is unaffected. -/
theorem order_progress_rounds_half_even (o : Order) (spCat : List SocialProfile)
    (h : o.serviceType = ServiceType.socialProfiles)
    (hne : (o.get_items_sp spCat).length ≠ 0) :
    o.order_progress spCat = some {
      created := ((o.get_items_sp spCat).filter (fun p =>
        decide (p.status = SPStatus.created ∨ p.status = SPStatus.failed))).length,
      total := (o.get_items_sp spCat).length,
      progress := toString (rndHalfEven
        ((((o.get_items_sp spCat).filter (fun p =>
            decide (p.status = SPStatus.created ∨ p.status = SPStatus.failed))).length : ℚ)
          / ((o.get_items_sp spCat).length : ℚ) * 100)) ++ "%" } :=
  order_progress_eq o spCat h hne

/-- C5 amended witness: the 5-item, 2-created scenario yields
{2, 5, "40%"}. -/
theorem order_progress_rounds_half_even_witness :
    Order.order_progress exOrderSP5 exCatSP5
      = some { created := 2, total := 5, progress := "40%" } := by
  have h := order_progress_rounds_half_even exOrderSP5 exCatSP5 rfl (by decide)
  have hc : ((exOrderSP5.get_items_sp exCatSP5).filter (fun p =>
      decide (p.status = SPStatus.created ∨ p.status = SPStatus.failed))).length = 2 := by
    decide
  have ht : (exOrderSP5.get_items_sp exCatSP5).length = 5 := by decide
  rw [hc, ht] at h
  have harg : (((2 : ℕ) : ℚ) / ((5 : ℕ) : ℚ) * 100) = ((40 : ℤ) : ℚ) := by
    push_cast
    norm_num
  rw [harg, rndHalfEven_intCast] at h
  rw [h]
  rfl

/-- C7 counterexample: a failed capture handled by the success callback on a
SocialProfiles order empties the cart (and the block flag) even though the
"Payment failed!" warning is issued, contradicting "the session cart is not
cleared" for that failed-capture path. -/
theorem payment_success_failed_capture_clears_cart :
    (payment_success exCatSP3 [] exSessionBlocked exOrderSP3 "rejected" false).sess.cart
      = [] ∧
    (payment_success exCatSP3 [] exSessionBlocked exOrderSP3 "rejected" false).warning
      = true ∧
    exSessionBlocked.cart ≠ [] := by
  refine ⟨rfl, rfl, ?_⟩
  decide

/-- C7 amended: the failure callback (payment_failure) clears the checkout
block flag and leaves the cart untouched, enabling a retry with the same cart
contents; however, when a capture handled by the success callback resolves to
Failed on a SocialProfiles order, the cart is cleared along with the flag. -/
theorem payment_failure_keeps_cart (sess : Session) :
    ((payment_failure sess).checkoutInfo = none ∧
     (payment_failure sess).cart = sess.cart) ∧
    (∀ (spCat : List SocialProfile) (rcCat : List ReputationCase) (o : Order)
       (st : String) (flag : Bool),
      o.serviceType = ServiceType.socialProfiles →
      (payment_success spCat rcCat sess o st flag).sess
        = { cart := [], checkoutInfo := none }) := by
  refine ⟨⟨rfl, rfl⟩, ?_⟩
  intro spCat rcCat o st flag h
  by_cases hc : st = "confirmed" <;> simp [payment_success, h, hc]

/-- C7 amended witness: the failure callback on the blocked session keeps the
one-line cart; the success callback on a failed capture clears it. -/
theorem payment_failure_keeps_cart_witness :
    (payment_failure exSessionBlocked).cart = exSessionBlocked.cart ∧
    (payment_failure exSessionBlocked).checkoutInfo = none ∧
    (payment_success exCatSP3 [] exSessionBlocked exOrderSP3 "rejected" false).sess
      = { cart := [], checkoutInfo := none } :=
  ⟨(payment_failure_keeps_cart exSessionBlocked).1.2,
   (payment_failure_keeps_cart exSessionBlocked).1.1,
   (payment_failure_keeps_cart exSessionBlocked).2 exCatSP3 [] exOrderSP3 "rejected" false rfl⟩

/-- Membership in the dispatched id list, unfolded. -/
lemma mem_dispatchIds {o : Order} {spCat : List SocialProfile} {i : ℕ} :
    i ∈ dispatchIds o spCat ↔
      ∃ p, p ∈ spCat ∧ p.pk ∈ o.items ∧
        p.status = SPStatus.requestedCreationUnpaid ∧ p.pk = i := by
  unfold dispatchIds Order.get_items_sp
  simp only [List.mem_map, List.mem_filter, decide_eq_true_eq]
  constructor
  · rintro ⟨p, ⟨⟨hp, hpi⟩, hst⟩, hpk⟩
    exact ⟨p, hp, hpi, hst, hpk⟩
  · rintro ⟨p, hp, hpi, hst, hpk⟩
    exact ⟨p, ⟨⟨hp, hpi⟩, hst⟩, hpk⟩

/-- markPaid does not change the pks. -/
lemma markPaid_map_pk (spCat : List SocialProfile) (ids : List ℕ) :
    (markPaid spCat ids).map SocialProfile.pk = spCat.map SocialProfile.pk := by
  unfold markPaid
  rw [List.map_map]
  apply List.map_congr_left
  intro p _
  by_cases hm : p.pk ∈ ids <;> simp [Function.comp, hm]

/-- markPaid with an empty id list is the identity. -/
lemma markPaid_nil (spCat : List SocialProfile) : markPaid spCat [] = spCat := by
  unfold markPaid
  simp

/-- After marking the dispatched items paid, no item of the order is still
awaiting payment. -/
lemma no_unpaid_after_markPaid (o : Order) (spCat : List SocialProfile) :
    ∀ q ∈ markPaid spCat (dispatchIds o spCat),
      q.pk ∈ o.items → q.status ≠ SPStatus.requestedCreationUnpaid := by
  intro q hq hqi
  unfold markPaid at hq
  rw [List.mem_map] at hq
  obtain ⟨p, hp, rfl⟩ := hq
  by_cases hm : p.pk ∈ dispatchIds o spCat
  · rw [if_pos hm]
    intro hst
    simp at hst
  · rw [if_neg hm] at hqi ⊢
    intro hst
    exact hm (mem_dispatchIds.mpr ⟨p, hp, hqi, hst, rfl⟩)

/-- Nothing gets dispatched when no order item is awaiting payment. -/
lemma dispatchIds_eq_nil (o : Order) (spCat : List SocialProfile)
    (h : ∀ q ∈ spCat, q.pk ∈ o.items → q.status ≠ SPStatus.requestedCreationUnpaid) :
    dispatchIds o spCat = [] := by
  rw [List.eq_nil_iff_forall_not_mem]
  intro i hi
  obtain ⟨p, hp, hpi, hst, rfl⟩ := mem_dispatchIds.mp hi
  exact h p hp hpi hst

/-- An id with no awaiting-payment row keeps that property through
markPaid. -/
lemma pk_absent_preserved (i : ℕ) (spCat : List SocialProfile) (ids : List ℕ)
    (h : ∀ q ∈ spCat, q.pk = i → q.status ≠ SPStatus.requestedCreationUnpaid) :
    ∀ q ∈ markPaid spCat ids, q.pk = i →
      q.status ≠ SPStatus.requestedCreationUnpaid := by
  intro q hq
  unfold markPaid at hq
  rw [List.mem_map] at hq
  obtain ⟨p, hp, rfl⟩ := hq
  by_cases hm : p.pk ∈ ids
  · rw [if_pos hm]
    intro _ hst
    simp at hst
  · rw [if_neg hm]
    exact h p hp

/-- An id with no awaiting-payment row is not dispatched. -/
lemma notMem_dispatchIds (o : Order) (i : ℕ) (spCat : List SocialProfile)
    (h : ∀ q ∈ spCat, q.pk = i → q.status ≠ SPStatus.requestedCreationUnpaid) :
    i ∉ dispatchIds o spCat := by
  intro hi
  obtain ⟨p, hp, _, hst, hpk⟩ := mem_dispatchIds.mp hi
  exact h p hp hpk hst

/-- Once an id has been dispatched and marked, none of its rows is awaiting
payment any more. -/
lemma pk_dispatched_paid (o : Order) (i : ℕ) (spCat : List SocialProfile)
    (hi : i ∈ dispatchIds o spCat) :
    ∀ q ∈ markPaid spCat (dispatchIds o spCat), q.pk = i →
      q.status ≠ SPStatus.requestedCreationUnpaid := by
  intro q hq hpk
  unfold markPaid at hq
  rw [List.mem_map] at hq
  obtain ⟨p, hp, rfl⟩ := hq
  by_cases hm : p.pk ∈ dispatchIds o spCat
  · rw [if_pos hm]
    intro hst
    simp at hst
  · rw [if_neg hm] at hpk
    exact fun _ => hm (by rw [hpk]; exact hi)

/-- dispatchIds is duplicate-free when the catalog pks are. -/
lemma nodup_dispatchIds (o : Order) (spCat : List SocialProfile)
    (h : (spCat.map SocialProfile.pk).Nodup) : (dispatchIds o spCat).Nodup := by
  unfold dispatchIds Order.get_items_sp
  exact List.Nodup.sublist
    (List.Sublist.map _ ((List.filter_sublist _).trans (List.filter_sublist _))) h

/-- The confirmed SocialProfiles branch of payment_success, in closed form. -/
lemma payment_success_pos (spCat : List SocialProfile) (rcCat : List ReputationCase)
    (sess : Session) (o : Order) (st : String) (flag : Bool)
    (h : o.serviceType = ServiceType.socialProfiles ∧ st = "confirmed") :
    payment_success spCat rcCat sess o st flag =
      { sess := { cart := [], checkoutInfo := none },
        spCat := markPaid spCat (dispatchIds o spCat), rcCat := rcCat,
        dispatched := dispatchIds o spCat, madeAnOrder := true,
        warning := false } := by
  simp [payment_success, h.1, h.2]

/-- Outside the confirmed SocialProfiles branch, payment_success neither
changes the profile catalog nor dispatches work. -/
lemma payment_success_neg (spCat : List SocialProfile) (rcCat : List ReputationCase)
    (sess : Session) (o : Order) (st : String) (flag : Bool)
    (h : ¬(o.serviceType = ServiceType.socialProfiles ∧ st = "confirmed")) :
    (payment_success spCat rcCat sess o st flag).spCat = spCat ∧
    (payment_success spCat rcCat sess o st flag).dispatched = [] := by
  simp only [payment_success, if_neg h]
  split
  · exact ⟨rfl, rfl⟩
  · exact ⟨rfl, rfl⟩

/-- An id with no awaiting-payment row is never dispatched over a whole run
sequence. -/
lemma count_run_seq_zero (o : Order) (i : ℕ) :
    ∀ (sts : List String) (spCat : List SocialProfile) (rcCat : List ReputationCase)
      (sess : Session) (flag : Bool),
      (∀ q ∈ spCat, q.pk = i → q.status ≠ SPStatus.requestedCreationUnpaid) →
      (run_success_seq o spCat rcCat sess flag sts).2.count i = 0
  | [], _, _, _, _, _ => by simp [run_success_seq]
  | st :: rest, spCat, rcCat, sess, flag, hq => by
      simp only [run_success_seq, List.count_append]
      by_cases h1 : o.serviceType = ServiceType.socialProfiles ∧ st = "confirmed"
      · rw [payment_success_pos spCat rcCat sess o st flag h1]
        simp only []
        have hz := count_run_seq_zero o i rest (markPaid spCat (dispatchIds o spCat))
          rcCat { cart := [], checkoutInfo := none } true
          (pk_absent_preserved i spCat (dispatchIds o spCat) hq)
        have hnm := notMem_dispatchIds o i spCat hq
        rw [List.count_eq_zero.mpr hnm, hz]
      · obtain ⟨hsp, hd⟩ := payment_success_neg spCat rcCat sess o st flag h1
        rw [hd, hsp]
        have hz := count_run_seq_zero o i rest spCat
          (payment_success spCat rcCat sess o st flag).rcCat
          (payment_success spCat rcCat sess o st flag).sess
          (payment_success spCat rcCat sess o st flag).madeAnOrder hq
        rw [hz]
        simp

/-- Over any sequence of payment_success runs, each id is dispatched at most
once (assuming duplicate-free catalog pks, as a primary key column is). -/
lemma count_run_seq_le_one (o : Order) (i : ℕ) :
    ∀ (sts : List String) (spCat : List SocialProfile) (rcCat : List ReputationCase)
      (sess : Session) (flag : Bool),
      (spCat.map SocialProfile.pk).Nodup →
      (run_success_seq o spCat rcCat sess flag sts).2.count i ≤ 1
  | [], _, _, _, _, _ => by simp [run_success_seq]
  | st :: rest, spCat, rcCat, sess, flag, hnd => by
      simp only [run_success_seq, List.count_append]
      by_cases h1 : o.serviceType = ServiceType.socialProfiles ∧ st = "confirmed"
      · rw [payment_success_pos spCat rcCat sess o st flag h1]
        simp only []
        by_cases h2 : i ∈ dispatchIds o spCat
        · have hc1 : (dispatchIds o spCat).count i ≤ 1 :=
            List.nodup_iff_count_le_one.mp (nodup_dispatchIds o spCat hnd) i
          have hz := count_run_seq_zero o i rest (markPaid spCat (dispatchIds o spCat))
            rcCat { cart := [], checkoutInfo := none } true
            (pk_dispatched_paid o i spCat h2)
          rw [hz]
          simpa using hc1
        · have hz1 : (dispatchIds o spCat).count i = 0 := List.count_eq_zero.mpr h2
          have hnd2 : ((markPaid spCat (dispatchIds o spCat)).map SocialProfile.pk).Nodup := by
            rw [markPaid_map_pk]
            exact hnd
          have hrec := count_run_seq_le_one o i rest (markPaid spCat (dispatchIds o spCat))
            rcCat { cart := [], checkoutInfo := none } true hnd2
          rw [hz1]
          simpa using hrec
      · obtain ⟨hsp, hd⟩ := payment_success_neg spCat rcCat sess o st flag h1
        rw [hd, hsp]
        have hrec := count_run_seq_le_one o i rest spCat
          (payment_success spCat rcCat sess o st flag).rcCat
          (payment_success spCat rcCat sess o st flag).sess
          (payment_success spCat rcCat sess o st flag).madeAnOrder hnd
        simpa using hrec

/-- C8: the confirmation callback is idempotent. Re-running payment_success
on an already-confirmed payment dispatches no work and re-flips no item
status (the catalog is unchanged), and over any sequence of runs each of the
order's items triggers at most one work dispatch (catalog pks are
duplicate-free, as a primary key column is). -/
theorem payment_success_no_duplicate_dispatch (spCat : List SocialProfile)
    (rcCat : List ReputationCase) (sess : Session) (o : Order) (flag : Bool)
    (hnd : (spCat.map SocialProfile.pk).Nodup) :
    ((payment_success (payment_success spCat rcCat sess o "confirmed" flag).spCat
        rcCat sess o "confirmed" flag).dispatched = [] ∧
     (payment_success (payment_success spCat rcCat sess o "confirmed" flag).spCat
        rcCat sess o "confirmed" flag).spCat
        = (payment_success spCat rcCat sess o "confirmed" flag).spCat) ∧
    (∀ (sts : List String) (i : ℕ),
      (run_success_seq o spCat rcCat sess flag sts).2.count i ≤ 1) := by
  constructor
  · by_cases h1 : o.serviceType = ServiceType.socialProfiles
    · have hpos := payment_success_pos spCat rcCat sess o "confirmed" flag ⟨h1, rfl⟩
      have hnil : dispatchIds o (markPaid spCat (dispatchIds o spCat)) = [] :=
        dispatchIds_eq_nil o _ (no_unpaid_after_markPaid o spCat)
      have hpos2 := payment_success_pos (markPaid spCat (dispatchIds o spCat))
        rcCat sess o "confirmed" flag ⟨h1, rfl⟩
      rw [hpos, hpos2]
      simp only []
      rw [hnil, markPaid_nil]
      exact ⟨rfl, rfl⟩
    · have hneg : ¬(o.serviceType = ServiceType.socialProfiles ∧
          ("confirmed" : String) = "confirmed") := fun hx => h1 hx.1
      obtain ⟨hsp1, hd1⟩ := payment_success_neg spCat rcCat sess o "confirmed" flag hneg
      rw [hsp1]
      exact ⟨hd1, hsp1⟩
  · intro sts i
    exact count_run_seq_le_one o i sts spCat rcCat sess flag hnd

/-- C8 witness: two confirmed runs on the three-profile order dispatch item 3
at most once, and the second run is a no-op. -/
theorem payment_success_no_duplicate_dispatch_witness :
    (payment_success
        (payment_success exCatSP3 [] exSessionBlocked exOrderSP3 "confirmed" false).spCat
        [] exSessionBlocked exOrderSP3 "confirmed" false).dispatched = [] ∧
    (run_success_seq exOrderSP3 exCatSP3 [] exSessionBlocked false
        ["confirmed", "confirmed"]).2.count 3 ≤ 1 := by
  have h := payment_success_no_duplicate_dispatch exCatSP3 [] exSessionBlocked
    exOrderSP3 false (by decide)
  exact ⟨h.1.1, h.2 ["confirmed", "confirmed"] 3⟩

end Accounting
